import Mathlib

/-!
Verification of the FPL telegram-bot pipeline (repository `meharpalbasi/telegram-bot`).

The four Python source files are shallowly embedded:
* `main.py`            — namespace `Main` (always-on bot variant);
* `send_update.py`     — namespace `SendUpdate` (one-shot variant);
* `send_price_predictions.py` — namespace `Predictions`;
* `send_transfer_trends.py`   — namespace `Trends`.

Modelling conventions:
* pandas DataFrames become `List`s of structures; derived columns become functions;
* a missing value after the left merge (pandas `NaN` in `now_cost_yest`) is `Option.none`;
  pandas comparison semantics are kept: `NaN != 0` is true, `NaN > 0` and `NaN < 0`
  are false;
* machine floats on exactly-representable data are modelled by `ℚ`;
* Python `str.__contains__` is modelled by an explicit substring scan;
* network fetches become explicit `Except` parameters so that both the success and
  the failure path of the code are represented.
-/

namespace TelegramBot

/-- A row of the FPL `elements` table, restricted to the columns the scripts read.
`selected_by_percent` sometimes arrives as an unparseable string; `none` models the
value that `pd.to_numeric(..., errors=\x7bcoerce\x7d)` turns into `NaN`. -/
structure Element where
  id : Int
  web_name : String
  now_cost : Int
  element_type : Int
  transfers_in_event : Int
  transfers_out_event : Int
  selected_by_percent : Option ℚ
deriving DecidableEq

/-- A row of `yesterday_costs.csv`: baseline id and yesterday's cost. -/
structure YRow where
  id : Int
  now_cost : Int
deriving DecidableEq

/-- A row of the left-merged frame: today's player data plus the optional
`now_cost_yest` column (`none` when the id had no baseline match). -/
structure Merged where
  cur : Element
  prev_cost : Option Int
deriving DecidableEq

/-- `players_clean_df.merge(yesterday_df, on="id", how="left", ...)`: one output row
per (current row, matching baseline row) pair; a current row without any match
yields a single row with `now_cost_yest = NaN` (here `none`). -/
def mergeLeft (cur : List Element) (yest : List YRow) : List Merged :=
  cur.flatMap fun p =>
    let ms := yest.filter fun y => y.id == p.id
    if ms.isEmpty then [⟨p, none⟩] else ms.map fun y => ⟨p, some y.now_cost⟩

/-- `merged_df["daily_change"] = merged_df["now_cost"] - merged_df["now_cost_yest"]`;
`none` models the `NaN` produced for unmatched rows. -/
def daily_change (m : Merged) : Option Int :=
  m.prev_cost.map fun y => m.cur.now_cost - y

/-- Stable sort, ascending by `key` (`sort_values(by=key, ascending=True)`). -/
def sortAscBy {α : Type} {β : Type} [LinearOrder β] (key : α → β) (l : List α) : List α :=
  List.insertionSort (fun a b => key a ≤ key b) l

/-- Stable sort, descending by `key` (`sort_values(by=key, ascending=False)`). -/
def sortDescBy {α : Type} {β : Type} [LinearOrder β] (key : α → β) (l : List α) : List α :=
  List.insertionSort (fun a b => key b ≤ key a) l

/-- `df.nlargest(n, col)`: the `n` rows with the largest `key`, descending, earlier
rows preferred on ties. -/
def nlargest {α : Type} (n : Nat) (key : α → ℚ) (l : List α) : List α :=
  (sortDescBy key l).take n

/-- `pat` starts the list `l` (elementwise equality). -/
def listStartsWith {α : Type} [BEq α] : List α → List α → Bool
  | [], _ => true
  | _ :: _, [] => false
  | p :: ps, x :: xs => p == x && listStartsWith ps xs

/-- `pat` occurs as a contiguous run inside `l`. -/
def listContainsSub {α : Type} [BEq α] (pat : List α) : List α → Bool
  | [] => pat.isEmpty
  | x :: xs => listStartsWith pat (x :: xs) || listContainsSub pat xs

/-- Python's `pat in s` on strings: substring containment. -/
def strContains (s pat : String) : Bool :=
  listContainsSub pat.data s.data

/-- Python `f"\x7bs:<w\x7d"`: pad `s` on the right with spaces to width `w`
(never truncates). -/
def padRight (s : String) (w : Nat) : String :=
  s ++ String.mk (List.replicate (w - s.length) ' ')

/-- One-decimal rendering of `n` tenths, i.e. Python `f"\x7bn/10:.1f\x7d"` for an
integer `n` of tenths (`n/10` has exactly one decimal digit, so the float prints
exactly). -/
def fmtTenths (n : Int) : String :=
  if n < 0 then "-" ++ toString ((-n).toNat / 10) ++ "." ++ toString ((-n).toNat % 10)
  else toString (n.toNat / 10) ++ "." ++ toString (n.toNat % 10)

/-- The `prev_cost` cell as printed: a matched value prints as tenths, an
unmatched `NaN` prints as Python renders `float("nan")` under `.1f`. -/
def fmtPrev (c : Option Int) : String :=
  match c with
  | some v => fmtTenths v
  | none => "nan"

/-- `'🔽' if change_type == 'Price Falls' else '🔼'`. -/
def arrowGlyph (change_type : String) : String :=
  if change_type == "Price Falls" then "🔽" else "🔼"

/-- `f"{change_type} {arrow}\n\n"`. -/
def header (change_type : String) : String :=
  change_type ++ " " ++ arrowGlyph change_type ++ "\n\n"

/-- The fixed column subheader line of both price-change formatters. -/
def subheader : String :=
  "Player          New Price     Old Price\n"

/-- One formatted player line:
`f"{web_name:<15}£{now_cost/10:<12.1f}£{prev_cost/10:.1f}"`. -/
def fmtLine (m : Merged) : String :=
  padRight m.cur.web_name 15 ++ "£" ++ padRight (fmtTenths m.cur.now_cost) 12
    ++ "£" ++ fmtPrev m.prev_cost

namespace Main

/-- `main.py::format_price_changes`: header, column subheader, then one line per
row — there is no special case for an empty frame, so an empty input yields the
header and subheader followed by an empty body. -/
def format_price_changes (l : List Merged) (change_type : String) : String :=
  header change_type ++ subheader ++ String.intercalate "\n" (l.map fmtLine)

/-- Step 7 of `main.py::get_price_changes`:
`merged_df[merged_df["daily_change"] != 0]`.  Note that pandas `NaN != 0` is
`True`, so unmatched rows pass this filter. -/
def price_changed (cur : List Element) (yest : List YRow) : List Merged :=
  (mergeLeft cur yest).filter fun m => !(daily_change m == some 0)

/-- Step 8 of `main.py::get_price_changes`: the `arrow` column,
`"up" if x > 0 else ("down" if x < 0 else "no_change")`; pandas `NaN > 0` and
`NaN < 0` are both `False`, so an unmatched row gets `"no_change"`. -/
def arrow (m : Merged) : String :=
  match daily_change m with
  | some d => if 0 < d then "up" else if d < 0 then "down" else "no_change"
  | none => "no_change"

/-- Steps 9–10 of `main.py::get_price_changes`: the `"up"` partition, sorted by
`now_cost` ascending. -/
def price_rises (cur : List Element) (yest : List YRow) : List Merged :=
  sortAscBy (fun m : Merged => m.cur.now_cost)
    ((price_changed cur yest).filter fun m => arrow m == "up")

/-- Steps 9–10 of `main.py::get_price_changes`: the `"down"` partition, sorted by
`now_cost` ascending. -/
def price_falls (cur : List Element) (yest : List YRow) : List Merged :=
  sortAscBy (fun m : Merged => m.cur.now_cost)
    ((price_changed cur yest).filter fun m => arrow m == "down")

end Main

namespace SendUpdate

/-- `send_update.py::format_price_changes`: unlike the `main.py` version, an empty
frame short-circuits to `header + "None"`. -/
def format_price_changes (l : List Merged) (change_type : String) : String :=
  if l.isEmpty then header change_type ++ "None"
  else header change_type ++ subheader ++ String.intercalate "\n" (l.map fmtLine)

/-- `changed = merged_df[merged_df["daily_change"] != 0]` (pandas `NaN != 0` is
`True`). -/
def changed (cur : List Element) (yest : List YRow) : List Merged :=
  (mergeLeft cur yest).filter fun m => !(daily_change m == some 0)

/-- `changed["daily_change"] > 0` as a boolean row predicate (`NaN > 0` is
`False`). -/
def dc_pos (m : Merged) : Bool :=
  match daily_change m with
  | some d => decide (0 < d)
  | none => false

/-- `changed["daily_change"] < 0` as a boolean row predicate (`NaN < 0` is
`False`). -/
def dc_neg (m : Merged) : Bool :=
  match daily_change m with
  | some d => decide (d < 0)
  | none => false

/-- `send_update.py::get_price_changes`:
`changed[changed["daily_change"] > 0].sort_values("now_cost", ascending=False)`. -/
def rises (cur : List Element) (yest : List YRow) : List Merged :=
  sortDescBy (fun m : Merged => m.cur.now_cost) ((changed cur yest).filter dc_pos)

/-- `send_update.py::get_price_changes`:
`changed[changed["daily_change"] < 0].sort_values("now_cost", ascending=False)`. -/
def falls (cur : List Element) (yest : List YRow) : List Merged :=
  sortDescBy (fun m : Merged => m.cur.now_cost) ((changed cur yest).filter dc_neg)

end SendUpdate


namespace Predictions

/-- `pd.to_numeric(df['selected_by_percent'], errors=...).fillna(0)`: an
unparseable ownership percentage becomes `0`. -/
def selected_pct (p : Element) : ℚ :=
  p.selected_by_percent.getD 0

/-- `total_managers = 10_000_000`, the rough FPL user-base constant. -/
def total_managers : ℚ := 10000000

/-- `df['owners'] = (df['selected_by_percent'] / 100) * total_managers`. -/
def owners (p : Element) : ℚ :=
  selected_pct p / 100 * total_managers

/-- `df['net_transfers'] = df['transfers_in_event'] - df['transfers_out_event']`. -/
def net_transfers (p : Element) : Int :=
  p.transfers_in_event - p.transfers_out_event

/-- `df['owners'].clip(lower=10000)`: the divisor of every pressure metric. -/
def clipOwners (p : Element) : ℚ :=
  max (owners p) 10000

/-- `df['transfer_velocity'] = df['net_transfers'] / df['owners'].clip(lower=10000)`. -/
def transfer_velocity (p : Element) : ℚ :=
  (net_transfers p : ℚ) / clipOwners p

/-- `df['rising_pressure'] = df['transfers_in_event'] / df['owners'].clip(lower=10000)`. -/
def rising_pressure (p : Element) : ℚ :=
  (p.transfers_in_event : ℚ) / clipOwners p

/-- `df['falling_pressure'] = df['transfers_out_event'] / df['owners'].clip(lower=10000)`. -/
def falling_pressure (p : Element) : ℚ :=
  (p.transfers_out_event : ℚ) / clipOwners p

/-- `meaningful = analysis_df[analysis_df['selected_by_percent'] >= 0.1]`. -/
def meaningful (l : List Element) : List Element :=
  l.filter fun p => mkRat 1 10 ≤ selected_pct p

/-- `send_price_predictions.py::get_price_predictions`, rising side, exactly in
source order: ownership filter, `net_transfers > 0` filter, `nlargest(10,
'rising_pressure')`, then the `transfers_in_event > 5000` activity filter, then
`head(5)`. -/
def rising (l : List Element) : List Element :=
  ((nlargest 10 rising_pressure ((meaningful l).filter fun p => 0 < net_transfers p)).filter
    fun p => 5000 < p.transfers_in_event).take 5

/-- `send_price_predictions.py::get_price_predictions`, falling side, exactly in
source order. -/
def falling (l : List Element) : List Element :=
  ((nlargest 10 falling_pressure ((meaningful l).filter fun p => net_transfers p < 0)).filter
    fun p => 5000 < p.transfers_out_event).take 5

/-- Modelled from the spec, claim C3 (not from the source): the final rising list
described as "the top 5 of the top 10 of the players satisfying all three filter
conditions", i.e. with the `transfers_in > 5000` activity filter applied BEFORE
ranking and truncation. -/
def rising_specOrder (l : List Element) : List Element :=
  (nlargest 10 rising_pressure
    (l.filter fun p =>
      mkRat 1 10 ≤ selected_pct p ∧ 0 < net_transfers p ∧ 5000 < p.transfers_in_event)).take 5

/-- Modelled from the spec, claim C3 (not from the source): the falling mirror of
`rising_specOrder`. -/
def falling_specOrder (l : List Element) : List Element :=
  (nlargest 10 falling_pressure
    (l.filter fun p =>
      mkRat 1 10 ≤ selected_pct p ∧ net_transfers p < 0 ∧ 5000 < p.transfers_out_event)).take 5

end Predictions

namespace Trends

/-- Round-half-even of `num / den` (`den > 0`), the rounding Python float
formatting applies.  For the divisors used here (`1000` and `100000` on counts
below 2^53 with exactly representable half-way cases in the `K` range) this
agrees with CPython `f"\x7b...:.0f\x7d"`. -/
def roundHalfEvenN (num den : Nat) : Nat :=
  if 2 * (num % den) < den then num / den
  else if den < 2 * (num % den) then num / den + 1
  else if (num / den) % 2 = 0 then num / den else num / den + 1

/-- `send_transfer_trends.py::format_number`: `n >= 1_000_000` prints as
one-decimal millions with an `M` suffix, `n >= 1_000` as integer thousands with a
`K` suffix, otherwise as `str(n)`.  The float renderings `f"\x7bn/1_000_000:.1f\x7d"`
and `f"\x7bn/1_000:.0f\x7d"` are modelled as round-half-even of the exact rational. -/
def format_number (n : Int) : String :=
  if 1000000 ≤ n then
    let t := roundHalfEvenN n.toNat 100000
    toString (t / 10) ++ "." ++ toString (t % 10) ++ "M"
  else if 1000 ≤ n then
    toString (roundHalfEvenN n.toNat 1000) ++ "K"
  else toString n

/-- `send_transfer_trends.py::format_transfer_message`:
`net_str = f"+\x7bformat_number(net)\x7d" if net > 0 else format_number(net)`. -/
def net_str (net : Int) : String :=
  if 0 < net then "+" ++ format_number net else format_number net

/-- The output string is an integer number of millions-with-one-decimal, `M`
suffixed, within half a decimal place of `n / 1_000_000`. -/
def approxM (n : Int) (s : String) : Prop :=
  ∃ t : Nat, s = toString (t / 10) ++ "." ++ toString (t % 10) ++ "M" ∧
    |(t : ℚ) / 10 - (n : ℚ) / 1000000| ≤ 1 / 20

/-- The output string is an integer, `K` suffixed, within one half of
`n / 1_000`. -/
def approxK (n : Int) (s : String) : Prop :=
  ∃ k : Nat, s = toString k ++ "K" ∧ |(k : ℚ) - (n : ℚ) / 1000| ≤ 1 / 2

end Trends

/-- `main.py::load_yesterday_costs`: the fetch/parse outcome is passed in as an
`Except`; any error is swallowed and becomes an empty table. -/
def load_yesterday_costs (fetched : Except String (List YRow)) : List YRow :=
  match fetched with
  | .ok df => df
  | .error _ => []

/-- The literal warning returned by `main.py::get_price_changes` when the
baseline is empty. -/
def warning_message : String :=
  "Warning: No \x27yesterday_costs.csv\x27 found."

namespace Main

/-- `main.py::get_price_changes`: loads the baseline, returns the warning pair on
an empty baseline, otherwise the two formatted messages (falls first). -/
def get_price_changes (players : List Element) (fetched : Except String (List YRow)) :
    String × String :=
  let yesterday := load_yesterday_costs fetched
  if yesterday.isEmpty then (warning_message, "")
  else
    (format_price_changes (price_falls players yesterday) "Price Falls",
     format_price_changes (price_rises players yesterday) "Price Rises")

/-- `main.py::format_final_message` (the current date passed explicitly). -/
def format_final_message (today falls_message rises_message : String) : String :=
  "Price Changes for " ++ today ++ "\n\n" ++ falls_message ++ "\n\n"
    ++ "----------------------------------------\n\n" ++ rises_message

/-- `main.py::handle_price_changes`, with the messages the bot sends returned as
a list: if the falls message contains "Warning:" and the rises message is empty,
only the warning is sent; otherwise the combined formatted message is sent. -/
def handle_price_changes (players : List Element) (fetched : Except String (List YRow))
    (today : String) : List String :=
  let falls_message := (get_price_changes players fetched).1
  let rises_message := (get_price_changes players fetched).2
  if strContains falls_message "Warning:" && (rises_message == "") then [falls_message]
  else [format_final_message today falls_message rises_message]

end Main

/-! ### Concrete inputs used by counterexamples and witnesses -/

/-- C1 counterexample input: two players whose prices both fell. -/
def c1A : Element := ⟨1, "A", 50, 3, 0, 0, some 10⟩

/-- C1 counterexample input, second player (cheaper). -/
def c1B : Element := ⟨2, "B", 40, 3, 0, 0, some 10⟩

/-- C1 counterexample current table. -/
def c1Cur : List Element := [c1A, c1B]

/-- C1 counterexample baseline: both players cost more yesterday. -/
def c1Yest : List YRow := [⟨1, 60⟩, ⟨2, 45⟩]

/-- C3 counterexample: a 0.1%-owned player with exactly 5000 transfers in —
high pressure (0.5) but below the absolute-activity floor. -/
def cxX : Element := ⟨1, "X", 50, 3, 5000, 0, some (mkRat 1 10)⟩

/-- C3 counterexample: a 50%-owned player with 6000 transfers in — passes all
three spec filters but has tiny pressure (0.0012). -/
def cxY : Element := ⟨100, "Y", 60, 3, 6000, 0, some 50⟩

/-- C3 counterexample table: ten high-pressure low-activity rows ahead of the
one row that satisfies all three filters. -/
def cxTbl : List Element :=
  [cxX, cxX, cxX, cxX, cxX, cxX, cxX, cxX, cxX, cxX, cxY]

/-- C4/C5 witness: the spec scenario — current price 55, baseline 50. -/
def w4P : Element := ⟨1, "M", 55, 3, 0, 0, some 1⟩

/-- C4/C5 witness baseline row for id 1. -/
def w4Y : YRow := ⟨1, 50⟩

/-- C5 witness current table: an unmatched player (id 7) plus the matched one. -/
def w5Cur : List Element := [⟨7, "U", 100, 3, 0, 0, some 1⟩, w4P]

/-- C6 witness: a rising candidate passing every filter. -/
def w6R : Element := ⟨9, "W", 80, 3, 6000, 0, some 50⟩

/-- C6 witness: a falling candidate passing every filter. -/
def w6F : Element := ⟨8, "F", 70, 3, 0, 6000, some 50⟩

/-! ### Helper lemmas -/

theorem sortAscBy_pairwise {α β : Type} [LinearOrder β] (key : α → β) (l : List α) :
    (sortAscBy key l).Pairwise (fun a b => key a ≤ key b) := by
  haveI : IsTotal α (fun a b => key a ≤ key b) := ⟨fun a b => le_total _ _⟩
  haveI : IsTrans α (fun a b => key a ≤ key b) := ⟨fun a b c h1 h2 => le_trans h1 h2⟩
  exact List.sorted_insertionSort _ l

theorem sortDescBy_pairwise {α β : Type} [LinearOrder β] (key : α → β) (l : List α) :
    (sortDescBy key l).Pairwise (fun a b => key b ≤ key a) := by
  haveI : IsTotal α (fun a b => key b ≤ key a) := ⟨fun a b => le_total _ _⟩
  haveI : IsTrans α (fun a b => key b ≤ key a) := ⟨fun a b c h1 h2 => le_trans h2 h1⟩
  exact List.sorted_insertionSort _ l

theorem mem_sortAscBy {α β : Type} [LinearOrder β] (key : α → β) (l : List α) (a : α) :
    a ∈ sortAscBy key l ↔ a ∈ l :=
  List.mem_insertionSort _

theorem mem_sortDescBy {α β : Type} [LinearOrder β] (key : α → β) (l : List α) (a : α) :
    a ∈ sortDescBy key l ↔ a ∈ l :=
  List.mem_insertionSort _

theorem mem_of_mem_nlargest {α : Type} {n : Nat} {key : α → ℚ} {l : List α} {a : α}
    (h : a ∈ nlargest n key l) : a ∈ l :=
  (mem_sortDescBy key l a).mp (List.mem_of_mem_take h)

theorem mem_mergeLeft_of_match (cur : List Element) (yest : List YRow) (p : Element)
    (y : YRow) (hp : p ∈ cur) (hy : y ∈ yest) (hid : y.id = p.id) :
    (⟨p, some y.now_cost⟩ : Merged) ∈ mergeLeft cur yest := by
  unfold mergeLeft
  rw [List.mem_flatMap]
  refine ⟨p, hp, ?_⟩
  have hyf : y ∈ yest.filter (fun z => z.id == p.id) :=
    List.mem_filter.mpr ⟨hy, by simp [hid]⟩
  have hne : (yest.filter (fun z => z.id == p.id)).isEmpty = false := by
    cases hfe : yest.filter (fun z => z.id == p.id) with
    | nil => rw [hfe] at hyf; cases hyf
    | cons a l => rfl
  simp only [hne, Bool.false_eq_true, if_false]
  exact List.mem_map.mpr ⟨y, hyf, rfl⟩

/-- A merged row whose `now_cost_yest` is present comes from an actual baseline
row with the same id. -/
theorem mergeLeft_match_of_prev_some (cur : List Element) (yest : List YRow)
    (m : Merged) (hm : m ∈ mergeLeft cur yest) (c : Int) (hc : m.prev_cost = some c) :
    ∃ y ∈ yest, y.id = m.cur.id := by
  unfold mergeLeft at hm
  rw [List.mem_flatMap] at hm
  obtain ⟨p, hp, hmem⟩ := hm
  by_cases he : (yest.filter fun z => z.id == p.id).isEmpty
  · simp only [he, if_true, List.mem_singleton] at hmem
    rw [hmem] at hc
    cases hc
  · simp only [he, if_false] at hmem
    obtain ⟨y, hyf, hym⟩ := List.mem_map.mp hmem
    have h2 := List.mem_filter.mp hyf
    refine ⟨y, h2.1, ?_⟩
    have : m.cur = p := by rw [← hym]
    rw [this]
    simpa using h2.2

theorem arrow_matched (p : Element) (c : Int) :
    Main.arrow ⟨p, some c⟩
      = if 0 < p.now_cost - c then "up"
        else if p.now_cost - c < 0 then "down" else "no_change" := rfl

theorem arrow_eq_up_iff (p : Element) (c : Int) :
    (Main.arrow ⟨p, some c⟩ == "up") = true ↔ 0 < p.now_cost - c := by
  rw [arrow_matched]
  split_ifs with h1 h2
  · exact iff_of_true (by decide) h1
  · exact iff_of_false (by decide) h1
  · exact iff_of_false (by decide) h1

theorem arrow_eq_down_iff (p : Element) (c : Int) :
    (Main.arrow ⟨p, some c⟩ == "down") = true ↔ p.now_cost - c < 0 := by
  rw [arrow_matched]
  split_ifs with h1 h2
  · exact iff_of_false (by decide) (by omega)
  · exact iff_of_true (by decide) h2
  · exact iff_of_false (by decide) h2

theorem changed_pred_iff (p : Element) (c : Int) :
    (!(daily_change ⟨p, some c⟩ == some 0)) = true ↔ p.now_cost - c ≠ 0 := by
  have h : daily_change ⟨p, some c⟩ = some (p.now_cost - c) := rfl
  rw [h]
  simp

/-- Membership in `main.py`'s risen partition, characterized: the row is a merged
row with a present baseline cost and a strictly positive delta. -/
theorem mem_main_price_rises_iff (cur : List Element) (yest : List YRow) (m : Merged) :
    m ∈ Main.price_rises cur yest ↔
      m ∈ mergeLeft cur yest ∧ ∃ c, m.prev_cost = some c ∧ 0 < m.cur.now_cost - c := by
  obtain ⟨p, pc⟩ := m
  unfold Main.price_rises
  rw [mem_sortAscBy, List.mem_filter, Main.price_changed, List.mem_filter]
  dsimp only
  cases pc with
  | none =>
    constructor
    · rintro ⟨-, h⟩
      rw [show Main.arrow ⟨p, none⟩ = "no_change" from rfl] at h
      exact absurd h (by decide)
    · rintro ⟨-, c, hc, -⟩
      cases hc
  | some c =>
    constructor
    · rintro ⟨⟨hm, -⟩, hup⟩
      exact ⟨hm, c, rfl, (arrow_eq_up_iff p c).mp hup⟩
    · rintro ⟨hm, c', hc', hpos⟩
      obtain rfl : c = c' := by injection hc'
      exact ⟨⟨hm, (changed_pred_iff p c).mpr (by omega)⟩, (arrow_eq_up_iff p c).mpr hpos⟩

/-- Membership in `main.py`'s fallen partition, characterized. -/
theorem mem_main_price_falls_iff (cur : List Element) (yest : List YRow) (m : Merged) :
    m ∈ Main.price_falls cur yest ↔
      m ∈ mergeLeft cur yest ∧ ∃ c, m.prev_cost = some c ∧ m.cur.now_cost - c < 0 := by
  obtain ⟨p, pc⟩ := m
  unfold Main.price_falls
  rw [mem_sortAscBy, List.mem_filter, Main.price_changed, List.mem_filter]
  dsimp only
  cases pc with
  | none =>
    constructor
    · rintro ⟨-, h⟩
      rw [show Main.arrow ⟨p, none⟩ = "no_change" from rfl] at h
      exact absurd h (by decide)
    · rintro ⟨-, c, hc, -⟩
      cases hc
  | some c =>
    constructor
    · rintro ⟨⟨hm, -⟩, hdn⟩
      exact ⟨hm, c, rfl, (arrow_eq_down_iff p c).mp hdn⟩
    · rintro ⟨hm, c', hc', hneg⟩
      obtain rfl : c = c' := by injection hc'
      exact ⟨⟨hm, (changed_pred_iff p c).mpr (by omega)⟩, (arrow_eq_down_iff p c).mpr hneg⟩

theorem dc_pos_iff (p : Element) (c : Int) :
    SendUpdate.dc_pos ⟨p, some c⟩ = true ↔ 0 < p.now_cost - c := by
  have h : SendUpdate.dc_pos ⟨p, some c⟩ = decide (0 < p.now_cost - c) := rfl
  rw [h]
  exact decide_eq_true_iff

theorem dc_neg_iff (p : Element) (c : Int) :
    SendUpdate.dc_neg ⟨p, some c⟩ = true ↔ p.now_cost - c < 0 := by
  have h : SendUpdate.dc_neg ⟨p, some c⟩ = decide (p.now_cost - c < 0) := rfl
  rw [h]
  exact decide_eq_true_iff

/-- Membership in `send_update.py`'s rises, characterized. -/
theorem mem_su_rises_iff (cur : List Element) (yest : List YRow) (m : Merged) :
    m ∈ SendUpdate.rises cur yest ↔
      m ∈ mergeLeft cur yest ∧ ∃ c, m.prev_cost = some c ∧ 0 < m.cur.now_cost - c := by
  obtain ⟨p, pc⟩ := m
  unfold SendUpdate.rises
  rw [mem_sortDescBy, List.mem_filter, SendUpdate.changed, List.mem_filter]
  dsimp only
  cases pc with
  | none =>
    constructor
    · rintro ⟨-, h⟩
      rw [show SendUpdate.dc_pos ⟨p, none⟩ = false from rfl] at h
      exact absurd h (by decide)
    · rintro ⟨-, c, hc, -⟩
      cases hc
  | some c =>
    constructor
    · rintro ⟨⟨hm, -⟩, hpos⟩
      exact ⟨hm, c, rfl, (dc_pos_iff p c).mp hpos⟩
    · rintro ⟨hm, c', hc', hpos⟩
      obtain rfl : c = c' := by injection hc'
      exact ⟨⟨hm, (changed_pred_iff p c).mpr (by omega)⟩, (dc_pos_iff p c).mpr hpos⟩

/-- Membership in `send_update.py`'s falls, characterized. -/
theorem mem_su_falls_iff (cur : List Element) (yest : List YRow) (m : Merged) :
    m ∈ SendUpdate.falls cur yest ↔
      m ∈ mergeLeft cur yest ∧ ∃ c, m.prev_cost = some c ∧ m.cur.now_cost - c < 0 := by
  obtain ⟨p, pc⟩ := m
  unfold SendUpdate.falls
  rw [mem_sortDescBy, List.mem_filter, SendUpdate.changed, List.mem_filter]
  dsimp only
  cases pc with
  | none =>
    constructor
    · rintro ⟨-, h⟩
      rw [show SendUpdate.dc_neg ⟨p, none⟩ = false from rfl] at h
      exact absurd h (by decide)
    · rintro ⟨-, c, hc, -⟩
      cases hc
  | some c =>
    constructor
    · rintro ⟨⟨hm, -⟩, hneg⟩
      exact ⟨hm, c, rfl, (dc_neg_iff p c).mp hneg⟩
    · rintro ⟨hm, c', hc', hneg⟩
      obtain rfl : c = c' := by injection hc'
      exact ⟨⟨hm, (changed_pred_iff p c).mpr (by omega)⟩, (dc_neg_iff p c).mpr hneg⟩

/-- Helper shared by C7 and C10: below the `K` threshold `format_number` is
`str(n)`. -/
theorem format_number_small (n : Int) (h : n < 1000) :
    Trends.format_number n = toString n := by
  unfold Trends.format_number
  rw [if_neg (by omega), if_neg (by omega)]

/-! ### Claim theorems -/

/-- C1, counterexample: in `send_update.py` the fallen partition is sorted by
current price DESCENDING, so on a concrete pair of fallen players (prices 50 and
40, both down from yesterday) the claimed ascending order fails. -/
theorem C1_sorted_by_price_counterexample :
    ¬ (SendUpdate.falls c1Cur c1Yest).Pairwise
        (fun a b => a.cur.now_cost ≤ b.cur.now_cost) := by
  decide

/-- C1, amended: within each partition of `main.py` any entry A before B has
`A.now_cost ≤ B.now_cost` (ascending by current price), while in the
`send_update.py` variant both partitions are sorted descending by current price.
-/
theorem C1_sorted_by_price_amended (cur : List Element) (yest : List YRow) :
    (Main.price_falls cur yest).Pairwise (fun a b => a.cur.now_cost ≤ b.cur.now_cost) ∧
    (Main.price_rises cur yest).Pairwise (fun a b => a.cur.now_cost ≤ b.cur.now_cost) ∧
    (SendUpdate.falls cur yest).Pairwise (fun a b => b.cur.now_cost ≤ a.cur.now_cost) ∧
    (SendUpdate.rises cur yest).Pairwise (fun a b => b.cur.now_cost ≤ a.cur.now_cost) :=
  ⟨sortAscBy_pairwise _ _, sortAscBy_pairwise _ _,
   sortDescBy_pairwise _ _, sortDescBy_pairwise _ _⟩

/-- C2, counterexample: `main.py`'s formatter has no empty-collection branch: on
an empty input its output does not contain "None" and is exactly the header plus
the column subheader with an empty body. -/
theorem C2_empty_placeholder_counterexample :
    strContains (Main.format_price_changes [] "Price Falls") "None" = false ∧
    Main.format_price_changes [] "Price Falls" = header "Price Falls" ++ subheader := by
  constructor
  · decide
  · unfold Main.format_price_changes
    simp [String.intercalate]

/-- C2, amended: only `send_update.py`'s formatter emits the "None" placeholder
on an empty collection (for both change types used by the program); `main.py`'s
formatter returns the header and subheader followed by an empty body. -/
theorem C2_empty_placeholder_amended (change_type : String) :
    SendUpdate.format_price_changes [] change_type = header change_type ++ "None" ∧
    strContains (SendUpdate.format_price_changes [] "Price Falls") "None" = true ∧
    strContains (SendUpdate.format_price_changes [] "Price Rises") "None" = true ∧
    Main.format_price_changes [] change_type = header change_type ++ subheader := by
  refine ⟨rfl, by decide, by decide, ?_⟩
  unfold Main.format_price_changes
  simp [String.intercalate]

/-- C8: every pressure metric of `calculate_price_pressure` divides by
`max(owners, 10000)`, which is at least 10000 and in particular strictly
positive for every row — including rows whose ownership is zero or unparseable
(`selected_by_percent = none`, coerced to 0); multiplying each metric back by
the divisor recovers the numerator exactly, so no division by zero occurs. -/
theorem C8_pressure_divisor_positive (p : Element) :
    Predictions.clipOwners p = max (Predictions.owners p) 10000 ∧
    (10000 : ℚ) ≤ Predictions.clipOwners p ∧
    0 < Predictions.clipOwners p ∧
    Predictions.clipOwners p * Predictions.transfer_velocity p
      = (Predictions.net_transfers p : ℚ) ∧
    Predictions.clipOwners p * Predictions.rising_pressure p
      = (p.transfers_in_event : ℚ) ∧
    Predictions.clipOwners p * Predictions.falling_pressure p
      = (p.transfers_out_event : ℚ) := by
  have hle : (10000 : ℚ) ≤ Predictions.clipOwners p := le_max_right _ _
  have hpos : (0 : ℚ) < Predictions.clipOwners p := lt_of_lt_of_le (by norm_num) hle
  have hne : Predictions.clipOwners p ≠ 0 := ne_of_gt hpos
  refine ⟨rfl, hle, hpos, ?_, ?_, ?_⟩
  · unfold Predictions.transfer_velocity
    rw [mul_comm, div_mul_cancel₀ _ hne]
  · unfold Predictions.rising_pressure
    rw [mul_comm, div_mul_cancel₀ _ hne]
  · unfold Predictions.falling_pressure
    rw [mul_comm, div_mul_cancel₀ _ hne]

/-- C9: when the baseline fetch/parse fails, `load_yesterday_costs` returns the
empty table, `get_price_changes` returns the warning string paired with the
empty string, and `handle_price_changes` sends exactly one message — the
warning — never a formatted price-change table. -/
theorem C9_baseline_failure_warning (e : String) (players : List Element)
    (today : String) :
    load_yesterday_costs (Except.error e) = [] ∧
    Main.get_price_changes players (Except.error e) = (warning_message, "") ∧
    Main.handle_price_changes players (Except.error e) today = [warning_message] :=
  ⟨rfl, rfl, rfl⟩

/-- C10: every integer below 1000 — including arbitrarily negative ones — is
rendered by `format_number` as its plain decimal string, and therefore a
negative net-transfer count formatted by `format_transfer_message`'s `net_str`
is always the full decimal string, never a K/M abbreviation. -/
theorem C10_small_counts_plain :
    (∀ n : Int, n < 1000 → Trends.format_number n = toString n) ∧
    (∀ net : Int, net < 0 → Trends.net_str net = toString net) := by
  refine ⟨fun n h => format_number_small n h, fun net h => ?_⟩
  unfold Trends.net_str
  rw [if_neg (by omega)]
  exact format_number_small net (by omega)

/-- C10, witness at concrete inputs. -/
theorem C10_small_counts_plain_witness :
    Trends.format_number 999 = toString (999 : Int) ∧
    Trends.net_str (-12345) = toString (-12345 : Int) :=
  ⟨C10_small_counts_plain.1 999 (by decide),
   C10_small_counts_plain.2 (-12345) (by decide)⟩

/-- C4: for every current player `p` matched by a baseline row `y` (same id),
the computed delta is exactly `p.now_cost - y.now_cost`, and — in both the
`main.py` and the `send_update.py` variant of the Change Calculator — the merged
row is in the risen list iff the delta is positive and in the fallen list iff
the delta is negative; hence it is in exactly one of risen / fallen / neither,
consistent with the delta's sign, and a zero delta lands in neither list. -/
theorem C4_delta_classification (cur : List Element) (yest : List YRow) (p : Element)
    (y : YRow) (hp : p ∈ cur) (hy : y ∈ yest) (hid : y.id = p.id) :
    daily_change ⟨p, some y.now_cost⟩ = some (p.now_cost - y.now_cost) ∧
    ((⟨p, some y.now_cost⟩ : Merged) ∈ Main.price_rises cur yest ↔
      0 < p.now_cost - y.now_cost) ∧
    ((⟨p, some y.now_cost⟩ : Merged) ∈ Main.price_falls cur yest ↔
      p.now_cost - y.now_cost < 0) ∧
    ((⟨p, some y.now_cost⟩ : Merged) ∈ SendUpdate.rises cur yest ↔
      0 < p.now_cost - y.now_cost) ∧
    ((⟨p, some y.now_cost⟩ : Merged) ∈ SendUpdate.falls cur yest ↔
      p.now_cost - y.now_cost < 0) := by
  have hm := mem_mergeLeft_of_match cur yest p y hp hy hid
  refine ⟨rfl, ?_, ?_, ?_, ?_⟩
  · rw [mem_main_price_rises_iff]
    constructor
    · rintro ⟨-, c, hc, hpos⟩
      have hc' : some y.now_cost = some c := hc
      obtain rfl : y.now_cost = c := by injection hc'
      exact hpos
    · intro hpos
      exact ⟨hm, y.now_cost, rfl, hpos⟩
  · rw [mem_main_price_falls_iff]
    constructor
    · rintro ⟨-, c, hc, hneg⟩
      have hc' : some y.now_cost = some c := hc
      obtain rfl : y.now_cost = c := by injection hc'
      exact hneg
    · intro hneg
      exact ⟨hm, y.now_cost, rfl, hneg⟩
  · rw [mem_su_rises_iff]
    constructor
    · rintro ⟨-, c, hc, hpos⟩
      have hc' : some y.now_cost = some c := hc
      obtain rfl : y.now_cost = c := by injection hc'
      exact hpos
    · intro hpos
      exact ⟨hm, y.now_cost, rfl, hpos⟩
  · rw [mem_su_falls_iff]
    constructor
    · rintro ⟨-, c, hc, hneg⟩
      have hc' : some y.now_cost = some c := hc
      obtain rfl : y.now_cost = c := by injection hc'
      exact hneg
    · intro hneg
      exact ⟨hm, y.now_cost, rfl, hneg⟩

/-- C4, witness: the spec's end-to-end scenario — current price 55, baseline 50,
delta 5, so the row appears in the risen list and not in the fallen list of both
variants. -/
theorem C4_delta_classification_witness :
    daily_change ⟨w4P, some w4Y.now_cost⟩ = some (w4P.now_cost - w4Y.now_cost) ∧
    ((⟨w4P, some w4Y.now_cost⟩ : Merged) ∈ Main.price_rises [w4P] [w4Y] ↔
      0 < w4P.now_cost - w4Y.now_cost) ∧
    ((⟨w4P, some w4Y.now_cost⟩ : Merged) ∈ Main.price_falls [w4P] [w4Y] ↔
      w4P.now_cost - w4Y.now_cost < 0) ∧
    ((⟨w4P, some w4Y.now_cost⟩ : Merged) ∈ SendUpdate.rises [w4P] [w4Y] ↔
      0 < w4P.now_cost - w4Y.now_cost) ∧
    ((⟨w4P, some w4Y.now_cost⟩ : Merged) ∈ SendUpdate.falls [w4P] [w4Y] ↔
      w4P.now_cost - w4Y.now_cost < 0) :=
  C4_delta_classification [w4P] [w4Y] w4P w4Y (by decide) (by decide) rfl

/-- C5: a player id with no matching baseline row appears in neither the risen
nor the fallen list, in both the `main.py` and the `send_update.py` variant of
the Change Calculator (its merged row has a missing `now_cost_yest`, whose
`NaN`-style comparisons exclude it from both partitions). -/
theorem C5_unmatched_excluded (cur : List Element) (yest : List YRow) (pid : Int)
    (hno : ∀ y ∈ yest, y.id ≠ pid) (m : Merged)
    (hm : m ∈ Main.price_rises cur yest ∨ m ∈ Main.price_falls cur yest ∨
      m ∈ SendUpdate.rises cur yest ∨ m ∈ SendUpdate.falls cur yest) :
    m.cur.id ≠ pid := by
  intro hidm
  have key : m ∈ mergeLeft cur yest ∧ ∃ c, m.prev_cost = some c := by
    rcases hm with h | h | h | h
    · obtain ⟨h1, c, hc, -⟩ := (mem_main_price_rises_iff cur yest m).mp h
      exact ⟨h1, c, hc⟩
    · obtain ⟨h1, c, hc, -⟩ := (mem_main_price_falls_iff cur yest m).mp h
      exact ⟨h1, c, hc⟩
    · obtain ⟨h1, c, hc, -⟩ := (mem_su_rises_iff cur yest m).mp h
      exact ⟨h1, c, hc⟩
    · obtain ⟨h1, c, hc, -⟩ := (mem_su_falls_iff cur yest m).mp h
      exact ⟨h1, c, hc⟩
  obtain ⟨hmerge, c, hc⟩ := key
  obtain ⟨y, hy, hyid⟩ := mergeLeft_match_of_prev_some cur yest m hmerge c hc
  exact hno y hy (hyid.trans hidm)

/-- C5, witness: with baseline `[⟨1, 50⟩]`, id 7 is unmatched; the row that does
appear in the risen list is the matched player, whose id is not 7. -/
theorem C5_unmatched_excluded_witness :
    (⟨w4P, some 50⟩ : Merged).cur.id ≠ 7 :=
  C5_unmatched_excluded w5Cur [w4Y] 7 (by decide) ⟨w4P, some 50⟩
    (Or.inl (by decide))

/-- C6: every player in the final rising prediction list has ownership at least
0.1% and strictly more than 5000 transfers in; every player in the final falling
list has ownership at least 0.1% and strictly more than 5000 transfers out. -/
theorem C6_prediction_filter_soundness (l : List Element) (p : Element) :
    (p ∈ Predictions.rising l →
      mkRat 1 10 ≤ Predictions.selected_pct p ∧ 5000 < p.transfers_in_event) ∧
    (p ∈ Predictions.falling l →
      mkRat 1 10 ≤ Predictions.selected_pct p ∧ 5000 < p.transfers_out_event) := by
  constructor
  · intro h
    unfold Predictions.rising at h
    have h1 := List.mem_of_mem_take h
    obtain ⟨h2, h3⟩ := List.mem_filter.mp h1
    have h4 := mem_of_mem_nlargest h2
    obtain ⟨h5, -⟩ := List.mem_filter.mp h4
    unfold Predictions.meaningful at h5
    obtain ⟨-, h6⟩ := List.mem_filter.mp h5
    exact ⟨of_decide_eq_true h6, of_decide_eq_true h3⟩
  · intro h
    unfold Predictions.falling at h
    have h1 := List.mem_of_mem_take h
    obtain ⟨h2, h3⟩ := List.mem_filter.mp h1
    have h4 := mem_of_mem_nlargest h2
    obtain ⟨h5, -⟩ := List.mem_filter.mp h4
    unfold Predictions.meaningful at h5
    obtain ⟨-, h6⟩ := List.mem_filter.mp h5
    exact ⟨of_decide_eq_true h6, of_decide_eq_true h3⟩

/-- C6, witness: a 50%-owned rising candidate with 6000 transfers in, and a
falling candidate with 6000 transfers out, each actually appearing in its final
prediction list. -/
theorem C6_prediction_filter_soundness_witness :
    (mkRat 1 10 ≤ Predictions.selected_pct w6R ∧ 5000 < w6R.transfers_in_event) ∧
    (mkRat 1 10 ≤ Predictions.selected_pct w6F ∧ 5000 < w6F.transfers_out_event) :=
  ⟨(C6_prediction_filter_soundness [w6R] w6R).1 (of_decide_eq_true rfl),
   (C6_prediction_filter_soundness [w6F] w6F).2 (of_decide_eq_true rfl)⟩

/-- Round-half-even of `m / den` differs from the exact quotient by at most one
half. -/
theorem roundHalfEvenN_close (m den : Nat) (hden : 0 < den) :
    |(Trends.roundHalfEvenN m den : ℚ) - (m : ℚ) / den| ≤ 1 / 2 := by
  have hden' : (0 : ℚ) < den := by exact_mod_cast hden
  have hmod : (m : ℚ) = den * ((m / den : Nat) : ℚ) + ((m % den : Nat) : ℚ) := by
    exact_mod_cast (Nat.div_add_mod m den).symm
  have hr : ((m % den : Nat) : ℚ) < den := by
    exact_mod_cast Nat.mod_lt m hden
  have hr0 : (0 : ℚ) ≤ ((m % den : Nat) : ℚ) := by positivity
  have hdiv : (m : ℚ) / den = ((m / den : Nat) : ℚ) + ((m % den : Nat) : ℚ) / den := by
    field_simp
    linarith [hmod]
  unfold Trends.roundHalfEvenN
  have h0 : (0 : ℚ) ≤ ((m % den : Nat) : ℚ) / den := by positivity
  have hone : ((m % den : Nat) : ℚ) / den ≤ 1 := by
    rw [div_le_one₀ hden']
    linarith
  split_ifs with h1 h2 h3
  · have h1' : 2 * ((m % den : Nat) : ℚ) < den := by exact_mod_cast h1
    have hhalf : ((m % den : Nat) : ℚ) / den ≤ 1 / 2 := by
      rw [div_le_iff₀ hden']
      linarith
    rw [hdiv, abs_le]
    constructor <;> linarith
  · have h2' : (den : ℚ) < 2 * ((m % den : Nat) : ℚ) := by exact_mod_cast h2
    have hhalf : 1 / 2 ≤ ((m % den : Nat) : ℚ) / den := by
      rw [le_div_iff₀ hden']
      linarith
    rw [hdiv, abs_le]
    push_cast
    constructor <;> linarith
  · have heq : 2 * (m % den) = den := by omega
    have heq' : (den : ℚ) = 2 * ((m % den : Nat) : ℚ) := by exact_mod_cast heq.symm
    have hhalf : ((m % den : Nat) : ℚ) / den = 1 / 2 := by
      rw [heq']
      rw [div_eq_iff (by linarith)]
      ring
    rw [hdiv, hhalf, abs_le]
    constructor <;> linarith
  · have heq : 2 * (m % den) = den := by omega
    have heq' : (den : ℚ) = 2 * ((m % den : Nat) : ℚ) := by exact_mod_cast heq.symm
    have hhalf : ((m % den : Nat) : ℚ) / den = 1 / 2 := by
      rw [heq']
      rw [div_eq_iff (by linarith)]
      ring
    rw [hdiv, hhalf, abs_le]
    push_cast
    constructor <;> linarith

/-- C7: `format_number` maps 999 ↦ "999", 1000 ↦ "1K", 1500000 ↦ "1.5M"; for
`n ≥ 1_000_000` the output is the one-decimal rendering of `n / 1_000_000`
(within half a decimal place) with an "M" suffix, for `1_000 ≤ n < 1_000_000` an
integer within one half of `n / 1_000` with a "K" suffix, and otherwise the
plain decimal string of `n`. -/
theorem C7_format_number_thresholds :
    (Trends.format_number 999 = "999" ∧ Trends.format_number 1000 = "1K" ∧
      Trends.format_number 1500000 = "1.5M") ∧
    (∀ n : Int, 1000000 ≤ n → Trends.approxM n (Trends.format_number n)) ∧
    (∀ n : Int, 1000 ≤ n → n < 1000000 → Trends.approxK n (Trends.format_number n)) ∧
    (∀ n : Int, n < 1000 → Trends.format_number n = toString n) := by
  refine ⟨⟨rfl, rfl, rfl⟩, ?_, ?_, fun n h => format_number_small n h⟩
  · intro n hn
    refine ⟨Trends.roundHalfEvenN n.toNat 100000, ?_, ?_⟩
    · unfold Trends.format_number
      rw [if_pos hn]
    · have hcast : ((n.toNat : Nat) : ℚ) = (n : ℚ) := by
        exact_mod_cast Int.toNat_of_nonneg (by omega : (0 : Int) ≤ n)
      have hclose := roundHalfEvenN_close n.toNat 100000 (by norm_num)
      rw [hcast] at hclose
      have heq : (Trends.roundHalfEvenN n.toNat 100000 : ℚ) / 10 - (n : ℚ) / 1000000
          = ((Trends.roundHalfEvenN n.toNat 100000 : ℚ) - (n : ℚ) / ((100000 : Nat) : ℚ)) / 10 := by
        push_cast
        ring
      rw [heq, abs_div]
      have h10 : |(10 : ℚ)| = 10 := by norm_num
      rw [h10]
      rw [div_le_iff₀ (by norm_num : (0 : ℚ) < 10)]
      have : (1 : ℚ) / 20 * 10 = 1 / 2 := by norm_num
      rw [this]
      exact hclose
  · intro n h1 h2
    refine ⟨Trends.roundHalfEvenN n.toNat 1000, ?_, ?_⟩
    · unfold Trends.format_number
      rw [if_neg (by omega), if_pos h1]
    · have hcast : ((n.toNat : Nat) : ℚ) = (n : ℚ) := by
        exact_mod_cast Int.toNat_of_nonneg (by omega : (0 : Int) ≤ n)
      have hclose := roundHalfEvenN_close n.toNat 1000 (by norm_num)
      rw [hcast] at hclose
      have heq : ((1000 : Nat) : ℚ) = (1000 : ℚ) := by norm_num
      rw [heq] at hclose
      exact hclose

/-- C7, witness at concrete inputs for each guarded clause. -/
theorem C7_format_number_thresholds_witness :
    Trends.approxM 2500000 (Trends.format_number 2500000) ∧
    Trends.approxK 1999 (Trends.format_number 1999) ∧
    Trends.format_number (-50) = toString (-50 : Int) :=
  ⟨C7_format_number_thresholds.2.1 2500000 (by decide),
   C7_format_number_thresholds.2.2.1 1999 (by decide) (by decide),
   C7_format_number_thresholds.2.2.2 (-50) (by decide)⟩

/-- Fusing two successive list filters. -/
theorem filter_filter_eq {α : Type} (p q : α → Bool) (l : List α) :
    (l.filter p).filter q = l.filter fun a => p a && q a := by
  induction l with
  | nil => rfl
  | cons a l ih =>
    by_cases hp : p a <;> by_cases hq : q a <;>
      simp [List.filter_cons, hp, hq, ih]

/-- C3, counterexample: on a table with ten 0.1%-owned rows at exactly 5000
transfers in (pressure 0.5 each) plus one 50%-owned row with 6000 transfers in
(pressure 0.0012), the code's rank-then-filter pipeline returns the empty list,
while the claimed filter-then-rank pipeline returns the qualifying row. -/
theorem C3_filter_order_counterexample :
    Predictions.rising cxTbl ≠ Predictions.rising_specOrder cxTbl := by
  have hRHS : Predictions.rising_specOrder cxTbl = [cxY] := of_decide_eq_true rfl
  have hpctX : Predictions.selected_pct cxX = mkRat 1 10 := rfl
  have hpctY : Predictions.selected_pct cxY = 50 := rfl
  have eX : Predictions.rising_pressure cxX = 1 / 2 := by
    unfold Predictions.rising_pressure Predictions.clipOwners Predictions.owners
      Predictions.total_managers
    rw [hpctX, Rat.mkRat_eq_div, show cxX.transfers_in_event = 5000 from rfl]
    norm_num
  have eY : Predictions.rising_pressure cxY = 3 / 2500 := by
    unfold Predictions.rising_pressure Predictions.clipOwners Predictions.owners
      Predictions.total_managers
    rw [hpctY, show cxY.transfers_in_event = 6000 from rfl]
    norm_num
  have hfilter : (Predictions.meaningful cxTbl).filter
      (fun p => 0 < Predictions.net_transfers p) = cxTbl := by decide
  have hYX : Predictions.rising_pressure cxY ≤ Predictions.rising_pressure cxX := by
    rw [eX, eY]
    norm_num
  have hXX : Predictions.rising_pressure cxX ≤ Predictions.rising_pressure cxX :=
    le_refl _
  have hsort : sortDescBy Predictions.rising_pressure cxTbl
      = [cxX, cxX, cxX, cxX, cxX, cxX, cxX, cxX, cxX, cxX, cxY] := by
    show List.insertionSort _ cxTbl = _
    rw [show cxTbl = [cxX, cxX, cxX, cxX, cxX, cxX, cxX, cxX, cxX, cxX, cxY] from rfl]
    simp [List.insertionSort, List.orderedInsert, hYX, hXX]
  have hLHS : Predictions.rising cxTbl = [] := by
    unfold Predictions.rising nlargest
    rw [hfilter, hsort]
    decide
  rw [hLHS, hRHS]
  intro h
  cases h

/-- C3, amended: the ownership and `net_transfers` filters do precede the
ranking, but the absolute-activity filter (`transfers_in > 5000`, resp.
`transfers_out > 5000`) is applied AFTER the top-10 truncation and before the
final `head(5)`; each final list is still sorted by its pressure score
descending. -/
theorem C3_filter_order_amended (l : List Element) :
    Predictions.rising l =
      ((nlargest 10 Predictions.rising_pressure
          (l.filter fun p => mkRat 1 10 ≤ Predictions.selected_pct p ∧
            0 < Predictions.net_transfers p)).filter
        fun p => 5000 < p.transfers_in_event).take 5 ∧
    Predictions.falling l =
      ((nlargest 10 Predictions.falling_pressure
          (l.filter fun p => mkRat 1 10 ≤ Predictions.selected_pct p ∧
            Predictions.net_transfers p < 0)).filter
        fun p => 5000 < p.transfers_out_event).take 5 ∧
    (Predictions.rising l).Pairwise
      (fun a b => Predictions.rising_pressure b ≤ Predictions.rising_pressure a) ∧
    (Predictions.falling l).Pairwise
      (fun a b => Predictions.falling_pressure b ≤ Predictions.falling_pressure a) := by
  refine ⟨?_, ?_, ?_, ?_⟩
  · unfold Predictions.rising Predictions.meaningful
    rw [filter_filter_eq]
    simp only [Bool.decide_and]
  · unfold Predictions.falling Predictions.meaningful
    rw [filter_filter_eq]
    simp only [Bool.decide_and]
  · unfold Predictions.rising nlargest
    exact List.Pairwise.sublist (List.take_sublist 5 _)
      (List.Pairwise.sublist (List.filter_sublist _)
        (List.Pairwise.sublist (List.take_sublist 10 _)
          (sortDescBy_pairwise Predictions.rising_pressure _)))
  · unfold Predictions.falling nlargest
    exact List.Pairwise.sublist (List.take_sublist 5 _)
      (List.Pairwise.sublist (List.filter_sublist _)
        (List.Pairwise.sublist (List.take_sublist 10 _)
          (sortDescBy_pairwise Predictions.falling_pressure _)))

end TelegramBot
